import Mathlib

/-!
Shallow embedding of `docling/models/tesseract_ocr_cli_model.py`
(class `TesseractOcrCliModel`).

Modelling conventions:
* Python floats are modelled as exact rationals (`ℚ`); the source performs
  only `+`, `/` and literal conversions, so the expression structure is
  preserved exactly.
* A numeric field of a parsed TSV row is `Option ℚ`: `none` models a value
  on which Python's `float(...)` (or `/ 100.0`) raises, i.e. a field that
  fails numeric parsing.  The text field is `Option String`: `none` models a
  null (NaN) entry produced by the CSV reader for an absent text field.
* Exceptions are modelled with `Except String` (the raised message) or, for
  per-row construction, with `Option`.
* `subprocess` results are modelled as a record of exit code, captured
  stdout, captured stderr, and (for the recognition call) the rows that the
  engine wrote to the temporary TSV sink, already tokenized by the external
  CSV reader (`pandas.read_csv` is a third-party collaborator, not code of
  this repository).
-/

namespace TesseractCli

/-- One tokenized data row of the engine's TSV output, as surfaced by the
CSV reader.  `none` in a numeric field means Python numeric conversion of
that field raises; `none` in `text` means the field was read as null. -/
structure RawRow where
  left   : Option ℚ
  top    : Option ℚ
  width  : Option ℚ
  height : Option ℚ
  conf   : Option ℚ
  text   : Option String
  deriving Repr, DecidableEq

/-- Result of running an external process to completion
(`Popen` + `communicate`): exit code, captured stdout and stderr, and the
data rows the engine wrote to the TSV sink file. -/
structure ProcResult where
  returncode : Int
  stdout     : String
  stderr     : String
  tsvRows    : List RawRow
  deriving Repr, DecidableEq

/-- Result of running `<cmd> --version` for the probe
(`_get_name_and_version`). -/
structure ProbeResult where
  returncode : Int
  stdout     : String
  stderr     : String
  deriving Repr, DecidableEq

/-- A bounding box / region `(l, t, r, b)` with top-left origin, as used for
both the OCR regions (`ocr_rect`) and the produced cell boxes. -/
structure BBox where
  l : ℚ
  t : ℚ
  r : ℚ
  b : ℚ
  deriving Repr, DecidableEq

/-- `BoundingBox.area()` of a top-left-origin box: width times height.
(The box type itself lives in the external `docling_core` collaborator;
only `area() == 0` is consumed by the source.) -/
def BBox.area (x : BBox) : ℚ := (x.r - x.l) * (x.b - x.t)

/-- A produced OCR cell (`OcrCell(id=ix, text=..., confidence=conf/100.0,
bbox=BoundingBox.from_tuple(coord, TOPLEFT))`). -/
structure OcrCell where
  id         : Nat
  text       : String
  confidence : ℚ
  bbox       : BBox
  deriving Repr, DecidableEq

/-- Existing (programmatic) page cells are opaque to this module. -/
structure Cell where
  tag : Nat
  deriving Repr, DecidableEq

/-- A page: its rendering backend (`none` = `page._backend is None`;
`some v` = backend present with `is_valid()` returning `v`) and its ordered
cell collection. -/
structure Page where
  backend : Option Bool
  cells   : List Cell
  deriving Repr, DecidableEq

/-! ## String primitives

Python's `str.strip()` and `str.split(sep)` are modelled by structurally
recursive functions on the character list, so that they evaluate by
reduction. -/

/-- Python `str.strip()`: drop leading and trailing whitespace. -/
def pyStrip (s : String) : String :=
  ⟨((s.data.dropWhile Char.isWhitespace).reverse.dropWhile
      Char.isWhitespace).reverse⟩

/-- Python `str.split(sep)` for a one-character separator: split at every
occurrence, keeping empty groups (`"a  b".split(" ") = ["a", "", "b"]`). -/
def splitOnCharAux (c : Char) : List Char → List (List Char)
  | [] => [[]]
  | a :: rest =>
    if a = c then [] :: splitOnCharAux c rest
    else
      match splitOnCharAux c rest with
      | [] => [[a]]
      | g :: gs => (a :: g) :: gs

/-- Python `str.split(sep)` on a `String`. -/
def pySplit (c : Char) (s : String) : List String :=
  (splitOnCharAux c s.data).map (fun g => ⟨g⟩)

/-! ## Probe: `_get_name_and_version` (lines 43-72) -/

/-- The `version_line` computation: stdout (stripped) if non-empty else
stderr (stripped); first line; stripped again. -/
def versionLine (p : ProbeResult) : String :=
  let s := if pyStrip p.stdout = "" then pyStrip p.stderr else pyStrip p.stdout
  pyStrip ((pySplit '\n' s).headD "")

/-- `_get_name_and_version` on a completed `--version` process: substitute
the sentinel line when empty, then unpack `name, version =
version_line.split(" ")` — `none` models the `ValueError` raised when the
split does not produce exactly two tokens.  The process exit code is never
inspected (the source calls `proc.wait()` but does not check
`proc.returncode` here). -/
def get_name_and_version (p : ProbeResult) : Option (String × String) :=
  let line := if versionLine p = "" then "tesseract XXX" else versionLine p
  match pySplit ' ' line with
  | [name, version] => some (name, version)
  | _ => none

/-- The stage's constructed state (`TesseractOcrCliModel.__init__`):
`enabled`, the fixed `scale = 3`, and the cached probe name/version. -/
structure Model where
  enabled : Bool
  scale   : ℚ
  name    : Option String
  version : Option String
  deriving Repr, DecidableEq

/-- `__init__`: when enabled, run the probe (`spawnProbe = none` models
`Popen` itself raising, e.g. executable not found); any exception from the
probe is re-raised as the `RuntimeError "Tesseract is not available..."`.
Returns the constructed model (or the raised error) together with a flag
recording whether a probe process was spawned at all. -/
def initTesseract (enabled : Bool) (spawnProbe : Option ProbeResult) :
    Except String Model × Bool :=
  if enabled then
    match spawnProbe with
    | none => (Except.error "Tesseract is not available, aborting", true)
    | some p =>
      match get_name_and_version p with
      | none => (Except.error "Tesseract is not available, aborting", true)
      | some nv =>
        (Except.ok { enabled := true, scale := 3
                     name := some nv.1, version := some nv.2 }, true)
  else (Except.ok { enabled := false, scale := 3, name := none, version := none },
        false)

/-! ## Recognition invocation and TSV filtering: `_run_tesseract`
(lines 74-105) -/

/-- The row filter of line 103:
`df["text"].notnull() & (df["text"].str.strip() != "")`. -/
def keepRow (r : RawRow) : Bool :=
  match r.text with
  | none => false
  | some s => !(pyStrip s = "")

/-- The CSV reader's row index (`pandas` RangeIndex): data rows are numbered
`n, n+1, ...` in order; filtering keeps the original indices. -/
def indexRowsFrom (n : Nat) : List RawRow → List (Nat × RawRow)
  | [] => []
  | r :: rs => (n, r) :: indexRowsFrom (n + 1) rs

/-- `df_filtered`: the indexed data rows that pass `keepRow`, with their
original (pre-filter) indices, in order. -/
def filteredRows (rows : List RawRow) : List (Nat × RawRow) :=
  (indexRowsFrom 0 rows).filter (fun q => keepRow q.2)

/-- `_run_tesseract` on a completed recognition process: a non-zero exit
code raises `RuntimeError` carrying the decoded stderr text; otherwise the
TSV sink is parsed and filtered to `df_filtered`. -/
def run_tesseract (p : ProcResult) : Except String (List (Nat × RawRow)) :=
  if p.returncode ≠ 0 then
    Except.error ("Tesseract failed with error: " ++ p.stderr)
  else
    Except.ok (filteredRows p.tsvRows)

/-! ## Per-row cell construction (`__call__`, lines 144-170) -/

/-- The body of the `for ix, row in df.iterrows()` loop for one row:
`l = float(row["left"]); b = float(row["top"]); w = float(row["width"]);
h = float(row["height"]); t = b + h; r = l + w`, confidence
`conf / 100.0`, and the bounding-box tuple
`((l/scale)+rect.l, (b/scale)+rect.t, (r/scale)+rect.l, (t/scale)+rect.t)`
with top-left origin.  `none` models the exception raised when any numeric
field fails conversion (the source has no handler for it). -/
def makeCell (ix : Nat) (row : RawRow) (rect : BBox) (scale : ℚ) :
    Option OcrCell :=
  match row.text, row.conf, row.left, row.top, row.width, row.height with
  | some text, some conf, some l, some b, some w, some h =>
    let t := b + h
    let r := l + w
    some { id := ix, text := text, confidence := conf / 100
           bbox := { l := l / scale + rect.l, t := b / scale + rect.t
                     r := r / scale + rect.l, b := t / scale + rect.t } }
  | _, _, _, _, _, _ => none

/-- The whole row loop for one region: builds a cell per filtered row in
order; the first row whose numeric conversion raises aborts the loop
(`none`), exactly as the unhandled Python exception would. -/
def cellsOfRows (rect : BBox) (scale : ℚ) :
    List (Nat × RawRow) → Option (List OcrCell)
  | [] => some []
  | q :: rest =>
    match makeCell q.1 q.2 rect scale with
    | none => none
    | some c => (cellsOfRows rect scale rest).map (fun cs => c :: cs)

/-! ## Region loop and page processing (`__call__`, lines 107-179) -/

/-- The `for ocr_rect in ocr_rects` loop: zero-area regions are skipped
with no render and no engine invocation; otherwise the crop is rendered,
the engine is invoked once (`invoke rect` is the completed process for that
region's image), its rows are parsed and mapped to cells.  Returns the
accumulated `all_ocr_cells` (or the first raised error) together with the
number of engine invocations performed. -/
def processRegions (invoke : BBox → ProcResult) (scale : ℚ) :
    List BBox → Except String (List OcrCell) × Nat
  | [] => (Except.ok [], 0)
  | rect :: rest =>
    if rect.area = 0 then processRegions invoke scale rest
    else
      match run_tesseract (invoke rect) with
      | Except.error e => (Except.error e, 1)
      | Except.ok irows =>
        match cellsOfRows rect scale irows with
        | none => (Except.error "ValueError", 1)
        | some cells =>
          let res := processRegions invoke scale rest
          (match res.1 with
           | Except.error e => Except.error e
           | Except.ok cs => Except.ok (cells ++ cs), res.2 + 1)

/-- Per-page body of `__call__` for an enabled stage: `assert
page._backend is not None` (an absent backend raises `AssertionError`),
then an invalid backend yields the page unchanged; otherwise the regions
are selected, processed, and `page.cells` is assigned exactly once from
`post_process_cells(all_ocr_cells, page.cells)` (the reconciler is an
external collaborator, passed in as `post`).  Returns the page as left by
the call (cells untouched unless the single assignment ran), the
raised-or-ok status (`error` means the page is not yielded), and the number
of engine invocations. -/
def processPage (invoke : BBox → ProcResult)
    (regionsOf : Page → List BBox)
    (post : List OcrCell → List Cell → List Cell)
    (scale : ℚ) (page : Page) : Page × Except String Unit × Nat :=
  match page.backend with
  | none => (page, Except.error "AssertionError", 0)
  | some false => (page, Except.ok (), 0)
  | some true =>
    match processRegions invoke scale (regionsOf page) with
    | (Except.error e, n) => (page, Except.error e, n)
    | (Except.ok cells, n) =>
      ({ page with cells := post cells page.cells }, Except.ok (), n)

/-- The page loop of `__call__` for an enabled stage: pages are yielded in
order until the first raised error (the failing page itself is not
yielded). -/
def callEnabled (invoke : BBox → ProcResult)
    (regionsOf : Page → List BBox)
    (post : List OcrCell → List Cell → List Cell)
    (scale : ℚ) : List Page → List Page × Except String Unit
  | [] => ([], Except.ok ())
  | p :: ps =>
    match processPage invoke regionsOf post scale p with
    | (p', Except.ok _, _) =>
      let rest := callEnabled invoke regionsOf post scale ps
      (p' :: rest.1, rest.2)
    | (_, Except.error e, _) => ([], Except.error e)

/-- `__call__`: a disabled stage yields the batch through unchanged
(`yield from page_batch`); an enabled stage runs the page loop. -/
def modelCall (m : Model) (invoke : BBox → ProcResult)
    (regionsOf : Page → List BBox)
    (post : List OcrCell → List Cell → List Cell)
    (pages : List Page) : List Page × Except String Unit :=
  if m.enabled then callEnabled invoke regionsOf post m.scale pages
  else (pages, Except.ok ())

/-- `Except.isOk`-style discriminator used in statements. -/
def exceptOk {ε α : Type} : Except ε α → Bool
  | Except.ok _ => true
  | Except.error _ => false

/-- A row whose numeric fields fail Python numeric conversion. -/
def rowNumericMalformed (r : RawRow) : Bool :=
  r.left.isNone || r.top.isNone || r.width.isNone ||
    r.height.isNone || r.conf.isNone

/-- The ids of the cells accumulated by a (successful) region loop. -/
def producedIds (res : Except String (List OcrCell) × Nat) : List Nat :=
  match res.1 with
  | Except.ok cs => cs.map OcrCell.id
  | Except.error _ => []

/-! ## Concrete data used in witnesses and counterexamples -/

/-- A row whose `left` field fails numeric parsing but whose text is real. -/
def badRow : RawRow :=
  { left := none, top := some 1, width := some 1, height := some 1
    conf := some 95, text := some "Bad" }

/-- A well-formed row with text `"Hi"` (cf. the spec's parser example). -/
def goodRow : RawRow :=
  { left := some 10, top := some 10, width := some 20, height := some 5
    conf := some 88, text := some "Hi" }

/-- A row whose text field was read as null (empty field). -/
def blankRow : RawRow :=
  { left := some 1, top := some 1, width := some 1, height := some 1
    conf := some 95, text := none }

/-- A zero-area region. -/
def rect0 : BBox := { l := 0, t := 0, r := 0, b := 0 }

/-- A 30 by 30 region at the origin. -/
def rect30 : BBox := { l := 0, t := 0, r := 30, b := 30 }

/-- A 50 by 50 region at the origin. -/
def rect50 : BBox := { l := 0, t := 0, r := 50, b := 50 }

/-- A successful engine run with an empty TSV sink. -/
def procEmpty : ProcResult :=
  { returncode := 0, stdout := "", stderr := "", tsvRows := [] }

/-- A successful engine run whose TSV holds one good text row. -/
def procGood1 : ProcResult :=
  { returncode := 0, stdout := "", stderr := "", tsvRows := [goodRow] }

/-- A successful engine run whose TSV holds a malformed row then a good
row. -/
def procBad : ProcResult :=
  { returncode := 0, stdout := "", stderr := "", tsvRows := [badRow, goodRow] }

/-- A failed engine run (non-zero exit, stderr text `"err"`). -/
def procFail : ProcResult :=
  { returncode := 1, stdout := "", stderr := "err", tsvRows := [] }

/-- A reconciler stand-in used by concrete witnesses. -/
def postW : List OcrCell → List Cell → List Cell :=
  fun newCells old => old ++ newCells.map (fun _ => { tag := 0 })

/-! ## General lemmas -/

/-- Forgetting the indices, filtering the indexed rows filters the rows. -/
theorem map_snd_filter_indexRowsFrom (n : Nat) (rows : List RawRow) :
    ((indexRowsFrom n rows).filter (fun q => keepRow q.2)).map Prod.snd =
      rows.filter keepRow := by
  induction rows generalizing n with
  | nil => rfl
  | cons r rs ih =>
    simp only [indexRowsFrom, List.filter_cons]
    cases h : keepRow r <;> simp [h, ih]

/-- Every index produced by `indexRowsFrom n` is at least `n`. -/
theorem le_fst_of_mem_indexRowsFrom (n : Nat) (rows : List RawRow)
    (q : Nat × RawRow) (hq : q ∈ indexRowsFrom n rows) : n ≤ q.1 := by
  induction rows generalizing n with
  | nil => cases hq
  | cons r rs ih =>
    rcases List.mem_cons.mp hq with h | h
    · subst h; exact Nat.le_refl n
    · exact Nat.le_of_succ_le (ih (n + 1) h)

/-- The indices produced by `indexRowsFrom` are strictly increasing. -/
theorem pairwise_indexRowsFrom (n : Nat) (rows : List RawRow) :
    (indexRowsFrom n rows).Pairwise (fun a b => a.1 < b.1) := by
  induction rows generalizing n with
  | nil => exact List.Pairwise.nil
  | cons r rs ih =>
    refine List.Pairwise.cons (fun q hq => ?_) (ih (n + 1))
    exact Nat.lt_of_lt_of_le (Nat.lt_succ_self n)
      (le_fst_of_mem_indexRowsFrom (n + 1) rs q hq)

/-- A successfully built cell carries the row's index as its id. -/
theorem makeCell_id (ix : Nat) (r : RawRow) (rect : BBox) (s : ℚ)
    (c : OcrCell) (h : makeCell ix r rect s = some c) : c.id = ix := by
  rcases r with ⟨l, t, w, h', cf, tx⟩
  cases tx <;> cases cf <;> cases l <;> cases t <;> cases w <;> cases h' <;>
    simp only [makeCell] at h <;> first
      | exact absurd h (Option.noConfusion)
      | (cases h; rfl)

/-- A numerically malformed row never builds a cell. -/
theorem makeCell_none_of_malformed (ix : Nat) (r : RawRow) (rect : BBox)
    (s : ℚ) (hm : rowNumericMalformed r = true) :
    makeCell ix r rect s = none := by
  rcases r with ⟨l, t, w, h', cf, tx⟩
  simp only [rowNumericMalformed, Bool.or_eq_true, Option.isNone_iff_eq_none]
    at hm
  cases tx <;> cases cf <;> cases l <;> cases t <;> cases w <;> cases h' <;>
    simp_all [makeCell]

/-- The row loop succeeds with ids exactly the rows' indices. -/
theorem cellsOfRows_ids (rect : BBox) (s : ℚ)
    (l : List (Nat × RawRow)) (cells : List OcrCell)
    (h : cellsOfRows rect s l = some cells) :
    cells.map OcrCell.id = l.map Prod.fst := by
  induction l generalizing cells with
  | nil => cases h; rfl
  | cons q rest ih =>
    simp only [cellsOfRows] at h
    cases hc : makeCell q.1 q.2 rect s with
    | none => rw [hc] at h; cases h
    | some c =>
      rw [hc] at h
      cases hrest : cellsOfRows rect s rest with
      | none => rw [hrest] at h; cases h
      | some cs =>
        rw [hrest] at h
        cases h
        simp [ih cs hrest, makeCell_id q.1 q.2 rect s c hc]

/-- A malformed row anywhere in the list aborts the row loop. -/
theorem cellsOfRows_none_of_mem_malformed (rect : BBox) (s : ℚ)
    (l : List (Nat × RawRow)) (q : Nat × RawRow) (hq : q ∈ l)
    (hm : rowNumericMalformed q.2 = true) :
    cellsOfRows rect s l = none := by
  induction l with
  | nil => cases hq
  | cons a rest ih =>
    rcases List.mem_cons.mp hq with h | h
    · subst h
      simp only [cellsOfRows]
      rw [makeCell_none_of_malformed q.1 q.2 rect s hm]
    · simp only [cellsOfRows]
      cases hc : makeCell a.1 a.2 rect s with
      | none => rfl
      | some c => simp [ih h]

/-! ## Claim theorems -/

/-- C1: for every parsed row with raw pixel geometry (L, T, W, H), region
origin `(rect.l, rect.t)` and scale `s`, the produced cell's bounding box
is exactly `(L/s + rect.l, T/s + rect.t, (L+W)/s + rect.l,
(T+H)/s + rect.t)` with top-left origin, computed exactly (modelled over
exact rationals). -/
theorem mapped_bbox_exact (ix : Nat) (L T W H conf : ℚ) (txt : String)
    (rect : BBox) (s : ℚ) :
    makeCell ix { left := some L, top := some T, width := some W
                  height := some H, conf := some conf, text := some txt }
        rect s =
      some { id := ix, text := txt, confidence := conf / 100
             bbox := { l := L / s + rect.l, t := T / s + rect.t
                       r := (L + W) / s + rect.l
                       b := (T + H) / s + rect.t } } := rfl

/-- C6: whenever the recognition process exits non-zero, `_run_tesseract`
fails with an error carrying the captured stderr text. -/
theorem nonzero_exit_error (p : ProcResult) (h : p.returncode ≠ 0) :
    run_tesseract p =
      Except.error ("Tesseract failed with error: " ++ p.stderr) := by
  simp [run_tesseract, h]

/-- Witness for C6 at a concrete failing process. -/
theorem nonzero_exit_error_witness :
    ((1 : Int) ≠ 0) ∧
    run_tesseract { returncode := 1, stdout := "", stderr := "boom"
                    tsvRows := [] } =
      Except.error ("Tesseract failed with error: " ++ "boom") :=
  ⟨by decide,
   nonzero_exit_error
     { returncode := 1, stdout := "", stderr := "boom", tsvRows := [] }
     (by decide)⟩

/-- C7: on a zero exit code, the parsed result is exactly the input rows
whose text field is present and non-empty after trimming, in input order. -/
theorem parse_keeps_exactly_nonblank (p : ProcResult)
    (h : p.returncode = 0) :
    ∃ out, run_tesseract p = Except.ok out ∧
      out.map Prod.snd = p.tsvRows.filter
        (fun r => match r.text with
                  | some s => !(pyStrip s = "")
                  | none => false) := by
  refine ⟨filteredRows p.tsvRows, ?_, ?_⟩
  · simp [run_tesseract, h]
  · rw [filteredRows, map_snd_filter_indexRowsFrom]
    refine List.filter_congr (fun r _ => ?_)
    cases h : r.text <;> simp [keepRow, h]

/-- Witness for C7 at the spec's parser example: an empty-text row and a
row with text `"Hi"` yield exactly the `"Hi"` row. -/
theorem parse_keeps_exactly_nonblank_witness :
    (({ returncode := 0, stdout := "", stderr := ""
        tsvRows := [blankRow, goodRow] } : ProcResult).returncode = 0) ∧
    (∃ out,
      run_tesseract { returncode := 0, stdout := "", stderr := ""
                      tsvRows := [blankRow, goodRow] } = Except.ok out ∧
      out.map Prod.snd = [blankRow, goodRow].filter
        (fun r => match r.text with
                  | some s => !(pyStrip s = "")
                  | none => false)) :=
  ⟨rfl,
   parse_keeps_exactly_nonblank
     { returncode := 0, stdout := "", stderr := ""
       tsvRows := [blankRow, goodRow] } rfl⟩

/-- C5: a disabled stage performs no probe at construction and its call is
the identity on the page batch, for every probe outcome, engine,
region-selector and post-processor. -/
theorem disabled_identity (spawnProbe : Option ProbeResult)
    (invoke : BBox → ProcResult) (regionsOf : Page → List BBox)
    (post : List OcrCell → List Cell → List Cell) (pages : List Page) :
    initTesseract false spawnProbe =
      (Except.ok { enabled := false, scale := 3, name := none
                   version := none }, false) ∧
    modelCall { enabled := false, scale := 3, name := none, version := none }
        invoke regionsOf post pages = (pages, Except.ok ()) :=
  ⟨rfl, rfl⟩

/-- C2 counterexample: with one non-degenerate region and a zero-exit
engine whose TSV holds a numerically malformed row followed by a good row,
page processing fails with the unhandled conversion error — the malformed
row is not dropped and processing does not continue. -/
theorem malformed_row_fatal_cex :
    (processRegions (fun _ => procBad) 3 [rect50]).1 =
      Except.error "ValueError" := by
  simp only [processRegions]
  rw [if_neg (by simp [rect50, BBox.area])]
  rfl

/-- C2 (amended): a kept row whose numeric fields fail parsing makes the
page processing fail with the conversion error; it is never skipped. -/
theorem malformed_row_aborts (invoke : BBox → ProcResult) (s : ℚ)
    (rect : BBox) (rest : List BBox) (q : Nat × RawRow)
    (ha : rect.area ≠ 0)
    (hr : (invoke rect).returncode = 0)
    (hq : q ∈ filteredRows (invoke rect).tsvRows)
    (hm : rowNumericMalformed q.2 = true) :
    (processRegions invoke s (rect :: rest)).1 =
      Except.error "ValueError" := by
  have hc := cellsOfRows_none_of_mem_malformed rect s
    (filteredRows (invoke rect).tsvRows) q hq hm
  simp only [processRegions, if_neg ha, run_tesseract, hr]
  simp [hc]

/-- Witness for the amended C2 at the concrete malformed-row input. -/
theorem malformed_row_aborts_witness :
    (rect50.area ≠ 0) ∧
    ((fun (_ : BBox) => procBad) rect50).returncode = 0 ∧
    ((0 : Nat), badRow) ∈
      filteredRows ((fun (_ : BBox) => procBad) rect50).tsvRows ∧
    rowNumericMalformed ((0 : Nat), badRow).2 = true ∧
    (processRegions (fun _ => procBad) 7 [rect50]).1 =
      Except.error "ValueError" :=
  ⟨by simp [rect50, BBox.area],
   rfl,
   by simp [procBad, filteredRows, indexRowsFrom, keepRow, badRow, goodRow,
            pyStrip],
   rfl,
   malformed_row_aborts (fun _ => procBad) 7 rect50 [] (0, badRow)
     (by simp [rect50, BBox.area]) rfl
     (by simp [procBad, filteredRows, indexRowsFrom, keepRow, badRow, goodRow,
               pyStrip])
     rfl⟩

/-- C3 counterexample: two non-degenerate regions on one page, each
producing one text row, yield two cells that share the id `0` — the ids of
the cells of one page's OCR pass are not pairwise distinct. -/
theorem duplicate_ids_across_regions_cex :
    ¬ (producedIds
        (processRegions (fun _ => procGood1) 3 [rect30, rect50])).Pairwise
        (fun a b => a ≠ b) := by
  intro hpw
  have h : producedIds
      (processRegions (fun _ => procGood1) 3 [rect30, rect50]) = [0, 0] := by
    simp only [processRegions]
    rw [if_neg (by simp [rect30, BBox.area]),
        if_neg (by simp [rect50, BBox.area])]
    rfl
  rw [h] at hpw
  exact (List.pairwise_cons.mp hpw).1 0 (List.mem_cons_self 0 []) rfl

/-- C3 (amended): within the cells built from a single region's parsed
output, ids are pairwise distinct (they are the pre-filter row indices);
ids may repeat across regions of the same page. -/
theorem ids_distinct_within_region (rect : BBox) (s : ℚ)
    (rows : List RawRow) (cells : List OcrCell)
    (h : cellsOfRows rect s (filteredRows rows) = some cells) :
    (cells.map OcrCell.id).Pairwise (fun a b => a ≠ b) := by
  rw [cellsOfRows_ids rect s (filteredRows rows) cells h]
  have hpw : (filteredRows rows).Pairwise (fun a b => a.1 < b.1) := by
    unfold filteredRows
    exact (pairwise_indexRowsFrom 0 rows).filter (fun q => keepRow q.2)
  exact List.pairwise_map.mpr (hpw.imp (fun hab => Nat.ne_of_lt hab))

/-- The single cell built from `goodRow` at index 1 in `rect30`, written
with the exact arithmetic expressions the row loop produces. -/
def cellHi : OcrCell :=
  { id := 1, text := "Hi", confidence := 88 / 100
    bbox := { l := 10 / 3 + 0, t := 10 / 3 + 0
              r := (10 + 20) / 3 + 0, b := (10 + 5) / 3 + 0 } }

/-- Witness for the amended C3 at a single-region concrete input. -/
theorem ids_distinct_within_region_witness :
    (cellsOfRows rect30 3 (filteredRows [blankRow, goodRow]) =
      some [cellHi]) ∧
    (([cellHi].map OcrCell.id).Pairwise (fun a b => a ≠ b)) :=
  ⟨rfl,
   ids_distinct_within_region rect30 3 [blankRow, goodRow] [cellHi] rfl⟩

/-- C4 counterexample: an enabled construction whose probe process exits
non-zero but prints a parseable version line succeeds — a failing probe
exit code does not make the constructor raise. -/
theorem probe_nonzero_exit_constructs_cex :
    exceptOk (initTesseract true
        (some { returncode := 1, stdout := "tesseract 5.3.0"
                stderr := "" })).1 = true := by
  decide

/-- C4 (amended): when enabled, the constructor raises exactly when the
probe computation itself raises — the spawn fails or the version line does
not split into exactly two space-separated tokens; it never yields a
silently disabled stage, and a probe is always performed. -/
theorem enabled_probe_failure_raises (spawnProbe : Option ProbeResult)
    (h : ∀ q, spawnProbe = some q → get_name_and_version q = none) :
    (initTesseract true spawnProbe).1 =
      Except.error "Tesseract is not available, aborting" ∧
    (initTesseract true spawnProbe).2 = true := by
  cases spawnProbe with
  | none => exact ⟨rfl, rfl⟩
  | some p =>
    have hp := h p rfl
    constructor
    · simp [initTesseract, hp]
    · simp [initTesseract, hp]

/-- Witness for the amended C4: a failed spawn (executable not found)
raises at construction. -/
theorem enabled_probe_failure_raises_witness :
    (∀ q : ProbeResult, (none : Option ProbeResult) = some q →
      get_name_and_version q = none) ∧
    ((initTesseract true none).1 =
        Except.error "Tesseract is not available, aborting" ∧
      (initTesseract true none).2 = true) :=
  ⟨fun q hq => Option.noConfusion hq,
   enabled_probe_failure_raises none (fun q hq => Option.noConfusion hq)⟩

/-- C8: in a successfully processed region list, every zero-area region
triggers no engine invocation and every non-zero-area region exactly one:
the invocation count equals the number of non-zero-area regions. -/
theorem invocations_eq_nonzero_area_regions (invoke : BBox → ProcResult)
    (s : ℚ) (regions : List BBox)
    (h : exceptOk (processRegions invoke s regions).1 = true) :
    (processRegions invoke s regions).2 =
      (regions.filter (fun r => decide (r.area ≠ 0))).length := by
  induction regions with
  | nil => rfl
  | cons rect rest ih =>
    by_cases ha : rect.area = 0
    · simp only [processRegions, if_pos ha] at h ⊢
      rw [ih h, List.filter_cons]
      simp [ha]
    · simp only [processRegions, if_neg ha] at h ⊢
      cases hrun : run_tesseract (invoke rect) with
      | error e => rw [hrun] at h; simp [exceptOk] at h
      | ok irows =>
        rw [hrun] at h
        simp only [] at h ⊢
        cases hcells : cellsOfRows rect s irows with
        | none => rw [hcells] at h; simp [exceptOk] at h
        | some cells =>
          rw [hcells] at h
          simp only [] at h ⊢
          cases hres : (processRegions invoke s rest).1 with
          | error e => rw [hres] at h; simp [exceptOk] at h
          | ok cs =>
            have hok : exceptOk (processRegions invoke s rest).1 = true := by
              rw [hres]; rfl
            rw [ih hok, List.filter_cons]
            simp [ha]

/-- Witness for C8 at the spec's example regions
`[(0,0,0,0), (0,0,50,50)]`: exactly one invocation occurs. -/
theorem invocations_eq_nonzero_area_regions_witness :
    exceptOk (processRegions (fun _ => procEmpty) 3 [rect0, rect50]).1 =
      true ∧
    (processRegions (fun _ => procEmpty) 3 [rect0, rect50]).2 =
      ([rect0, rect50].filter (fun r => decide (BBox.area r ≠ 0))).length :=
  ⟨by simp [processRegions, rect0, rect50, BBox.area, run_tesseract,
            procEmpty, filteredRows, indexRowsFrom, cellsOfRows, exceptOk],
   invocations_eq_nonzero_area_regions (fun _ => procEmpty) 3 [rect0, rect50]
     (by simp [processRegions, rect0, rect50, BBox.area, run_tesseract,
               procEmpty, filteredRows, indexRowsFrom, cellsOfRows,
               exceptOk])⟩

/-- C9 counterexample: a page with an unavailable (absent) backend makes
the enabled stage raise an assertion error instead of yielding the page
unchanged. -/
theorem absent_backend_raises_cex :
    (processPage (fun _ => procEmpty) (fun _ => []) postW 3
        { backend := none, cells := [{ tag := 5 }] }).2.1 =
      Except.error "AssertionError" := by
  rfl

/-- C9 (amended): a page whose backend is present but invalid is yielded
unchanged by the enabled stage, with no engine invocation and no change to
its cell collection; an absent backend instead fails the assertion. -/
theorem invalid_backend_passthrough (invoke : BBox → ProcResult)
    (regionsOf : Page → List BBox)
    (post : List OcrCell → List Cell → List Cell) (s : ℚ) (page : Page)
    (h : page.backend = some false) :
    processPage invoke regionsOf post s page = (page, Except.ok (), 0) := by
  simp [processPage, h]

/-- Witness for the amended C9 at a concrete invalid-backend page. -/
theorem invalid_backend_passthrough_witness :
    (({ backend := some false, cells := [{ tag := 7 }] } : Page).backend =
        some false) ∧
    processPage (fun _ => procEmpty) (fun _ => [rect50]) postW 3
        { backend := some false, cells := [{ tag := 7 }] } =
      ({ backend := some false, cells := [{ tag := 7 }] },
        Except.ok (), 0) :=
  ⟨rfl,
   invalid_backend_passthrough (fun _ => procEmpty) (fun _ => [rect50])
     postW 3 { backend := some false, cells := [{ tag := 7 }] } rfl⟩

/-- C10: whenever processing a page raises (any region's invocation or row
conversion failing), the page's cell collection is left exactly as it was:
`page.cells` is assigned only once, after all regions succeeded. -/
theorem cells_unchanged_on_error (invoke : BBox → ProcResult)
    (regionsOf : Page → List BBox)
    (post : List OcrCell → List Cell → List Cell) (s : ℚ) (page : Page)
    (e : String)
    (h : (processPage invoke regionsOf post s page).2.1 = Except.error e) :
    (processPage invoke regionsOf post s page).1 = page := by
  cases hb : page.backend with
  | none => simp [processPage, hb]
  | some v =>
    cases v with
    | false => simp [processPage, hb]
    | true =>
      simp only [processPage, hb] at h ⊢
      cases hres : (processRegions invoke s (regionsOf page)) with
      | mk res n =>
        cases res with
        | error e2 => simp [hres]
        | ok cells => rw [hres] at h; cases h

/-- Witness for C10: a mid-page engine failure (non-zero exit on the only
region) leaves the page's cells untouched. -/
theorem cells_unchanged_on_error_witness :
    ((processPage (fun _ => procFail) (fun _ => [rect50]) postW 3
        { backend := some true, cells := [{ tag := 9 }] }).2.1 =
      Except.error ("Tesseract failed with error: " ++ "err")) ∧
    (processPage (fun _ => procFail) (fun _ => [rect50]) postW 3
        { backend := some true, cells := [{ tag := 9 }] }).1 =
      { backend := some true, cells := [{ tag := 9 }] } :=
  ⟨by simp [processPage, processRegions, rect50, BBox.area, run_tesseract,
            procFail],
   cells_unchanged_on_error (fun _ => procFail) (fun _ => [rect50]) postW 3
     { backend := some true, cells := [{ tag := 9 }] }
     ("Tesseract failed with error: " ++ "err")
     (by simp [processPage, processRegions, rect50, BBox.area,
               run_tesseract, procFail])⟩

end TesseractCli
